import Mathlib

/-!
Verification development for the bangerid web application (Go).

The embedding is shallow: each Go function relevant to the claims is
translated into a pure Lean function.  The HTTP network is modelled as an
oracle (for the OAuth code exchange and the token refresh) or as a finite
trace of successive page responses (for the paginated Spotify client).
Wall-clock time is modelled as an integer number of seconds, so
2 minutes = 120, 5 minutes = 300 and 30 days = 2592000 seconds.
The mutable pieces of state (the CSRF state store in handlers/auth.go and
the global tracksCache in main.go) are passed and returned explicitly.
-/

namespace Bangerid

/-! ## Data model from internal/spotify/client.go -/

/-- Track represents a simplified Spotify track for the grid
(struct Track in client.go, fields ID, Name, Artist, AlbumImage). -/
structure Track where
  ID : String
  Name : String
  Artist : String
  AlbumImage : String
deriving DecidableEq, Repr

/-- LinkedFrom from client.go (json fields id, uri). -/
structure LinkedFrom where
  id : String
  uri : String
deriving DecidableEq, Repr

/-- An album image entry (json fields url, height, width). -/
structure ImageObj where
  url : String
  height : Int
  width : Int
deriving DecidableEq, Repr

/-- An artist entry of a track (json field name). -/
structure ArtistObj where
  name : String
deriving DecidableEq, Repr

/-- The nested Track object of a saved-tracks item in SavedTracksResponse. -/
structure TrackObj where
  id : String
  uri : String
  name : String
  linkedFrom : Option LinkedFrom
  artists : List ArtistObj
  albumImages : List ImageObj
deriving DecidableEq, Repr

/-- One element of the items array of SavedTracksResponse. -/
structure SavedItem where
  addedAt : String
  track : TrackObj
deriving DecidableEq, Repr

/-- SavedTracksResponse matches the Spotify API response structure
(client.go): items, next (null on the last page), total, limit, offset. -/
structure SavedTracksResponse where
  items : List SavedItem
  next : Option String
  total : Int
  limit : Int
  offset : Int
deriving DecidableEq, Repr

/-- The stable URI selection of FetchLikedTracks (client.go): the
linked_from uri when linked_from is present with a non-empty uri,
otherwise the track uri. -/
def stableURIOf (t : TrackObj) : String :=
  match t.linkedFrom with
  | some lf => if lf.uri ≠ "" then lf.uri else t.uri
  | none => t.uri

/-- The artist selection of FetchLikedTracks (client.go): the first
artist name; the Track struct zero value "" when the artists list is
empty. -/
def firstArtistName (t : TrackObj) : String :=
  match t.artists with
  | [] => ""
  | a :: _ => a.name

/-- The album-image selection of FetchLikedTracks (client.go) for a
non-empty image list img0 :: restImgs: the first image whose height and
width are exactly 64, falling back to the last image. -/
def albumImageOf (img0 : ImageObj) (imgs : List ImageObj) : String :=
  match imgs.find? (fun im => im.height == 64 && im.width == 64) with
  | some im => im.url
  | none => (imgs.getLastD img0).url

/-- The per-item normalization performed by the body of the inner loop of
FetchLikedTracks (client.go): stable URI selection via linked_from, first
artist name (zero value "" when the artists list is empty), 64x64 album
image with fallback to the last image, and skipping (continue) any item
whose album image list is empty. -/
def normalizeItem (item : SavedItem) : Option Track :=
  let t := item.track
  match t.albumImages with
  | [] => none
  | img0 :: restImgs =>
    some ⟨stableURIOf t, t.name, firstArtistName t,
      albumImageOf img0 (img0 :: restImgs)⟩

/-- The tracks contributed by one page of the paging loop, in item order
(the inner for-loop of FetchLikedTracks appends them to allTracks). -/
def pageTracks (page : SavedTracksResponse) : List Track :=
  page.items.filterMap normalizeItem

/-- The outcome of one HTTP round trip of the paging loop: a transport
error from client.Do, a non-200 status, a JSON decode failure, or a
decoded SavedTracksResponse. -/
inductive FetchOutcome where
  | httpErr (msg : String)
  | badStatus (code : Nat) (body : String)
  | decodeErr (msg : String)
  | ok (page : SavedTracksResponse)
deriving DecidableEq, Repr

/-- The URL the loop continues with after a page: *response.Next when next
is non-null, "" (the loop exit sentinel) when next is null. -/
def nextURL (page : SavedTracksResponse) : String :=
  match page.next with
  | some u => u
  | none => ""

/-- The initial request URL of FetchLikedTracks (client.go). -/
def initialTracksURL : String :=
  "https://api.spotify.com/v1/me/tracks?limit=50&market=from_token"

/-- The paging loop of FetchLikedTracks (client.go, for url != "").  The
network is a finite trace of successive responses; each iteration with a
non-empty url consumes the next element.  none means the trace was
exhausted while the loop still wanted another page (the real loop would
issue a further request beyond the given trace). -/
def fetchLoop : List FetchOutcome → String → List Track →
    Option (Except String (List Track))
  | [], url, acc =>
    if url = "" then some (Except.ok acc) else none
  | FetchOutcome.httpErr m :: _, url, acc =>
    if url = "" then some (Except.ok acc)
    else some (Except.error ("failed to fetch tracks: " ++ m))
  | FetchOutcome.badStatus code body :: _, url, acc =>
    if url = "" then some (Except.ok acc)
    else some (Except.error ("spotify API error " ++ toString code ++
      ": " ++ body))
  | FetchOutcome.decodeErr m :: _, url, acc =>
    if url = "" then some (Except.ok acc)
    else some (Except.error ("failed to decode response: " ++ m))
  | FetchOutcome.ok page :: rest, url, acc =>
    if url = "" then some (Except.ok acc)
    else fetchLoop rest (nextURL page) (acc ++ pageTracks page)

/-- FetchLikedTracks (client.go) over a response trace: the loop starts at
the initial limit=50 URL with an empty accumulator. -/
def fetchLikedTracks (outcomes : List FetchOutcome) :
    Option (Except String (List Track)) :=
  fetchLoop outcomes initialTracksURL []

/-! ## OAuth data model from internal/handlers/auth.go and middleware.go -/

/-- An oauth2.Token as used by the handlers: access token, refresh token
and expiry instant (seconds). -/
structure Token where
  accessToken : String
  refreshToken : String
  expiry : Int
deriving DecidableEq, Repr

/-- An http.Cookie as set by the handlers.  Only the fields the handlers
vary are modelled; Path is always "/", Secure always false and SameSite
always Lax in the source, so they are omitted. -/
structure Cookie where
  name : String
  value : String
  httpOnly : Bool
  expires : Option Int
  maxAge : Option Int
deriving DecidableEq, Repr

/-- The query parameters CallbackHandler reads from the request
(auth.go): state, code and error. -/
structure CallbackInput where
  state : String
  code : String
  errorParam : String
deriving DecidableEq, Repr

/-- The observable effect of one CallbackHandler invocation: the HTTP
status written (400, 500 or 307), the redirect target when one is issued,
the cookies set, and whether oauthConfig.Exchange was called. -/
structure CallbackOutput where
  status : Nat
  redirectTo : Option String
  cookies : List Cookie
  exchanged : Bool
deriving DecidableEq, Repr

/-- The state store of auth.go: the map stateStore from state strings to
creation instants, modelled as an association list whose lookup agrees
with the Go map. -/
def StateStore : Type := List (String × Int)

/-- Go delete(stateStore, state): remove every binding of the key. -/
def eraseState (store : StateStore) (s : String) : StateStore :=
  List.filter (fun p => p.1 != s) store

/-- Go map lookup stateStore[state]. -/
def lookupState (store : StateStore) (s : String) : Option Int :=
  List.lookup s store

/-- The access-token cookie set on a successful exchange (auth.go) and on
a successful refresh (middleware.go): HttpOnly, Expires = token expiry. -/
def accessTokenCookie (tok : Token) : Cookie :=
  ⟨"spotify_access_token", tok.accessToken, true, some tok.expiry, none⟩

/-- The refresh-token cookie (auth.go and middleware.go): HttpOnly,
MaxAge 60*60*24*30 = 2592000 seconds (30 days). -/
def refreshTokenCookie (tok : Token) : Cookie :=
  ⟨"spotify_refresh_token", tok.refreshToken, true, none, some 2592000⟩

/-- CallbackHandler (auth.go).  The code exchange is an oracle from the
authorization code to an optional token (none = Exchange returned an
error).  now is the current instant; time.Since(createdAt) > 2*time.Minute
becomes now - createdAt > 120.  Returns the observable output and the
state store after the request. -/
def callbackHandler (exchange : String → Option Token) (now : Int)
    (store : StateStore) (inp : CallbackInput) :
    CallbackOutput × StateStore :=
  if inp.errorParam ≠ "" then
    (⟨400, none, [], false⟩, store)
  else
    match lookupState store inp.state with
    | none => (⟨400, none, [], false⟩, store)
    | some createdAt =>
      let store2 := eraseState store inp.state
      if now - createdAt > 120 then
        (⟨400, none, [], false⟩, store2)
      else
        match exchange inp.code with
        | none => (⟨500, none, [], true⟩, store2)
        | some tok =>
          let cs :=
            [accessTokenCookie tok] ++
              (if tok.refreshToken ≠ "" then [refreshTokenCookie tok] else [])
          (⟨307, some "/", cs, true⟩, store2)

/-! ## RequireAuth middleware from internal/handlers/middleware.go -/

/-- The cookies of a request as RequireAuth reads them: r.Cookie returns
an error exactly when the cookie is absent, so each is an Option. -/
structure AuthRequest where
  accessCookie : Option String
  expiryCookie : Option String
  refreshCookie : Option String
deriving DecidableEq, Repr

/-- The observable effect of one RequireAuth invocation: whether it
redirected to /login, the context token the wrapped handler was invoked
with (none = not invoked), the cookies set, the computed needsRefresh
flag, and whether tokenSource.Token() was called. -/
structure AuthOutput where
  redirected : Bool
  nextToken : Option String
  cookies : List Cookie
  needsRefresh : Bool
  refreshCalled : Bool
deriving DecidableEq, Repr

/-- The expiry cookie written after a successful refresh
(middleware.go): value newToken.Expiry.Format(RFC3339), HttpOnly,
Expires = the token expiry.  fmtRFC3339 is the formatting oracle. -/
def expiryCookieOf (fmtRFC3339 : Int → String) (tok : Token) : Cookie :=
  ⟨"spotify_token_expiry", fmtRFC3339 tok.expiry, true, some tok.expiry, none⟩

/-- The needsRefresh computation of RequireAuth (middleware.go): true when
the expiry cookie is absent, fails to parse, or parses to an instant less
than 5 minutes (300 s) in the future. -/
def computeNeedsRefresh (parseRFC3339 : String → Option Int) (now : Int)
    (expiryCookie : Option String) : Bool :=
  match expiryCookie with
  | none => true
  | some v =>
    match parseRFC3339 v with
    | none => true
    | some expiry => expiry - now < 300

/-- RequireAuth (middleware.go).  parseRFC3339 is the time.Parse oracle
(none = parse error), refresh the tokenSource.Token() oracle keyed by the
refresh-token cookie value (none = refresh failed), fmtRFC3339 the
Format oracle, now the current instant; time.Until(expiry) < 5*time.Minute
becomes expiry - now < 300. -/
def requireAuth (parseRFC3339 : String → Option Int)
    (refresh : String → Option Token) (fmtRFC3339 : Int → String)
    (now : Int) (req : AuthRequest) : AuthOutput :=
  match req.accessCookie with
  | none => ⟨true, none, [], false, false⟩
  | some access =>
    let needsRefresh := computeNeedsRefresh parseRFC3339 now req.expiryCookie
    if needsRefresh then
      match req.refreshCookie with
      | none => ⟨true, none, [], true, false⟩
      | some rt =>
        match refresh rt with
        | none => ⟨true, none, [], true, true⟩
        | some tok =>
          let cs :=
            [accessTokenCookie tok, expiryCookieOf fmtRFC3339 tok] ++
              (if tok.refreshToken ≠ "" then [refreshTokenCookie tok] else [])
          ⟨false, some tok.accessToken, cs, true, true⟩
    else ⟨false, some access, [], false, false⟩

/-! ## gridHandler and homeHandler from cmd/server/main.go -/

/-- The observable effect of one gridHandler invocation: the HTTP status,
the track list handed to the grid template (none on error), and whether
FetchLikedTracks was called. -/
structure GridOutput where
  status : Nat
  rendered : Option (List Track)
  fetched : Bool
deriving DecidableEq, Repr

/-- gridHandler (main.go).  fetchResult is the outcome FetchLikedTracks
would produce for this request; the global tracksCache is passed in and
the updated cache returned.  The fetch happens only when the cache is
empty (len(tracksCache) == 0), and the template renders the current
tracksCache; template parsing, which happens after the cache update and
is unrelated to the claims, is modelled as always succeeding. -/
def gridHandler (fetchResult : Except String (List Track))
    (cache : List Track) : GridOutput × List Track :=
  if cache.length = 0 then
    match fetchResult with
    | Except.error _ => (⟨500, none, true⟩, cache)
    | Except.ok tracks => (⟨200, some tracks, true⟩, tracks)
  else
    (⟨200, some cache, false⟩, cache)

/-- The template data homeHandler passes to index.html (main.go). -/
structure HomeData where
  LoggedIn : Bool
  Token : String
deriving DecidableEq, Repr

/-- homeHandler (main.go): none models the 404 branch for a non-root
path; otherwise LoggedIn mirrors the presence of the access-token cookie
and Token carries its value (zero value "" when absent).  The result is
the data struct handed to the index.html template; template parsing is
modelled as always succeeding. -/
def homeHandler (path : String) (accessCookie : Option String) :
    Option HomeData :=
  if path ≠ "/" then none
  else
    match accessCookie with
    | some v => some ⟨true, v⟩
    | none => some ⟨false, ""⟩

/-! ## Branch lemmas for callbackHandler -/

theorem callbackHandler_err (exchange : String → Option Token) (now : Int)
    (store : StateStore) (inp : CallbackInput) (h : inp.errorParam ≠ "") :
    callbackHandler exchange now store inp = (⟨400, none, [], false⟩, store) := by
  simp [callbackHandler, h]

theorem callbackHandler_nostate (exchange : String → Option Token) (now : Int)
    (store : StateStore) (inp : CallbackInput) (h1 : inp.errorParam = "")
    (h2 : lookupState store inp.state = none) :
    callbackHandler exchange now store inp = (⟨400, none, [], false⟩, store) := by
  simp [callbackHandler, h1, h2]

theorem callbackHandler_expired (exchange : String → Option Token) (now : Int)
    (store : StateStore) (inp : CallbackInput) (t : Int)
    (h1 : inp.errorParam = "") (h2 : lookupState store inp.state = some t)
    (h3 : now - t > 120) :
    callbackHandler exchange now store inp =
      (⟨400, none, [], false⟩, eraseState store inp.state) := by
  simp [callbackHandler, h1, h2, h3]

theorem callbackHandler_exchangeFail (exchange : String → Option Token)
    (now : Int) (store : StateStore) (inp : CallbackInput) (t : Int)
    (h1 : inp.errorParam = "") (h2 : lookupState store inp.state = some t)
    (h3 : ¬ now - t > 120) (h4 : exchange inp.code = none) :
    callbackHandler exchange now store inp =
      (⟨500, none, [], true⟩, eraseState store inp.state) := by
  simp [callbackHandler, h1, h2, h3, h4]

theorem callbackHandler_success (exchange : String → Option Token)
    (now : Int) (store : StateStore) (inp : CallbackInput) (t : Int)
    (tok : Token) (h1 : inp.errorParam = "")
    (h2 : lookupState store inp.state = some t) (h3 : ¬ now - t > 120)
    (h4 : exchange inp.code = some tok) :
    callbackHandler exchange now store inp =
      (⟨307, some "/",
        [accessTokenCookie tok] ++
          (if tok.refreshToken ≠ "" then [refreshTokenCookie tok] else []),
        true⟩,
       eraseState store inp.state) := by
  simp [callbackHandler, h1, h2, h3, h4]

theorem lookupState_eraseState (store : StateStore) (s : String) :
    lookupState (eraseState store s) s = none := by
  induction store with
  | nil => rfl
  | cons p rest ih =>
    obtain ⟨k, v⟩ := p
    by_cases h : k = s
    · simpa [lookupState, eraseState, List.filter_cons, h] using ih
    · have hs : (s == k) = false := beq_eq_false_iff_ne.mpr (Ne.symm h)
      simpa [lookupState, eraseState, List.filter_cons, h, List.lookup, hs]
        using ih

/-! ## Claim theorems about CallbackHandler -/

/-- Claim C1: CallbackHandler exchanges the authorization code only when
the request state is a stored state at most 2 minutes (120 s) old; when
the error parameter is non-empty, the state is absent from the store, or
the state is older than 2 minutes, it responds 400, performs no exchange
and sets no cookies. -/
theorem C1_callback_state_validation (exchange : String → Option Token)
    (now : Int) (store : StateStore) (inp : CallbackInput) :
    ((callbackHandler exchange now store inp).1.exchanged = true →
      inp.errorParam = "" ∧
      ∃ t, lookupState store inp.state = some t ∧ now - t ≤ 120) ∧
    ((inp.errorParam ≠ "" ∨ lookupState store inp.state = none ∨
        (∃ t, lookupState store inp.state = some t ∧ now - t > 120)) →
      (callbackHandler exchange now store inp).1.status = 400 ∧
      (callbackHandler exchange now store inp).1.exchanged = false ∧
      (callbackHandler exchange now store inp).1.cookies = []) := by
  by_cases he : inp.errorParam = ""
  · cases hl : lookupState store inp.state with
    | none =>
      rw [callbackHandler_nostate exchange now store inp he hl]
      simp
    | some t =>
      by_cases ht : now - t > 120
      · rw [callbackHandler_expired exchange now store inp t he hl ht]
        simp
      · have hmain : inp.errorParam = "" ∧
            ∃ u, (some t : Option Int) = some u ∧ now - u ≤ 120 :=
          ⟨he, t, rfl, by omega⟩
        have hneg : ¬ (inp.errorParam ≠ "" ∨
            (some t : Option Int) = none ∨
            (∃ u, (some t : Option Int) = some u ∧ now - u > 120)) := by
          rintro (hc1 | hc2 | ⟨u, hu, hgt⟩)
          · exact hc1 he
          · cases hc2
          · injection hu with h3; omega
        cases hx : exchange inp.code with
        | none =>
          rw [callbackHandler_exchangeFail exchange now store inp t he hl ht
            hx]
          exact ⟨fun _ => hmain, fun h => absurd h hneg⟩
        | some tok =>
          rw [callbackHandler_success exchange now store inp t tok he hl ht
            hx]
          exact ⟨fun _ => hmain, fun h => absurd h hneg⟩
  · rw [callbackHandler_err exchange now store inp he]
    simp

/-- Witness for C1 at a concrete rejected request: an empty store makes
the handler answer 400 with no exchange and no cookies. -/
theorem C1_callback_state_validation_witness :
    (callbackHandler (fun _ => none) 0 [] ⟨"s1", "c1", ""⟩).1.status = 400 ∧
    (callbackHandler (fun _ => none) 0 [] ⟨"s1", "c1", ""⟩).1.exchanged =
      false ∧
    (callbackHandler (fun _ => none) 0 [] ⟨"s1", "c1", ""⟩).1.cookies = [] :=
  (C1_callback_state_validation (fun _ => none) 0 [] ⟨"s1", "c1", ""⟩).2
    (Or.inr (Or.inl rfl))

/-- Claim C5: on a validated callback whose code exchange succeeds, the
handler sets an HttpOnly access-token cookie with Expires = the token
expiry, sets an HttpOnly refresh-token cookie with MaxAge 2592000 s
(30 days) exactly when the refresh token is non-empty, and redirects
(307) to /. -/
theorem C5_callback_success_cookies (exchange : String → Option Token)
    (now : Int) (store : StateStore) (inp : CallbackInput) (t : Int)
    (tok : Token) (h1 : inp.errorParam = "")
    (h2 : lookupState store inp.state = some t) (h3 : now - t ≤ 120)
    (h4 : exchange inp.code = some tok) :
    (callbackHandler exchange now store inp).1.status = 307 ∧
    (callbackHandler exchange now store inp).1.redirectTo = some "/" ∧
    (callbackHandler exchange now store inp).1.cookies =
      [⟨"spotify_access_token", tok.accessToken, true, some tok.expiry,
        none⟩] ++
        (if tok.refreshToken ≠ "" then
          [⟨"spotify_refresh_token", tok.refreshToken, true, none,
            some 2592000⟩]
         else []) := by
  rw [callbackHandler_success exchange now store inp t tok h1 h2 (by omega)
    h4]
  exact ⟨rfl, rfl, rfl⟩

/-- Witness for C5 at a concrete successful exchange. -/
theorem C5_callback_success_cookies_witness :
    (callbackHandler (fun _ => some ⟨"AT", "RT", 3600⟩) 60 [("s1", 0)]
        ⟨"s1", "c1", ""⟩).1.status = 307 ∧
    (callbackHandler (fun _ => some ⟨"AT", "RT", 3600⟩) 60 [("s1", 0)]
        ⟨"s1", "c1", ""⟩).1.redirectTo = some "/" ∧
    (callbackHandler (fun _ => some ⟨"AT", "RT", 3600⟩) 60 [("s1", 0)]
        ⟨"s1", "c1", ""⟩).1.cookies =
      [⟨"spotify_access_token", (⟨"AT", "RT", 3600⟩ : Token).accessToken,
        true, some (⟨"AT", "RT", 3600⟩ : Token).expiry, none⟩] ++
        (if (⟨"AT", "RT", 3600⟩ : Token).refreshToken ≠ "" then
          [⟨"spotify_refresh_token",
            (⟨"AT", "RT", 3600⟩ : Token).refreshToken, true, none,
            some 2592000⟩]
         else []) :=
  C5_callback_success_cookies (fun _ => some ⟨"AT", "RT", 3600⟩) 60
    [("s1", 0)] ⟨"s1", "c1", ""⟩ 0 ⟨"AT", "RT", 3600⟩ rfl (by decide)
    (by decide) rfl

/-- Claim C8: a state found in the store is deleted in the same critical
section regardless of the expiry check or exchange outcome, so a second
callback presenting the same state is rejected with 400 and no exchange. -/
theorem C8_state_single_use (exchange exchange2 : String → Option Token)
    (now now2 : Int) (store : StateStore) (inp inp2 : CallbackInput)
    (t : Int) (h1 : inp.errorParam = "")
    (h2 : lookupState store inp.state = some t)
    (h3 : inp2.state = inp.state) :
    lookupState (callbackHandler exchange now store inp).2 inp.state =
      none ∧
    (callbackHandler exchange2 now2 (callbackHandler exchange now store
        inp).2 inp2).1.status = 400 ∧
    (callbackHandler exchange2 now2 (callbackHandler exchange now store
        inp).2 inp2).1.exchanged = false := by
  have hstore : (callbackHandler exchange now store inp).2 =
      eraseState store inp.state := by
    by_cases ht : now - t > 120
    · rw [callbackHandler_expired exchange now store inp t h1 h2 ht]
    · cases hx : exchange inp.code with
      | none =>
        rw [callbackHandler_exchangeFail exchange now store inp t h1 h2 ht
          hx]
      | some tok =>
        rw [callbackHandler_success exchange now store inp t tok h1 h2 ht
          hx]
  rw [hstore]
  have hnone : lookupState (eraseState store inp.state) inp.state = none :=
    lookupState_eraseState store inp.state
  refine ⟨hnone, ?_⟩
  by_cases he2 : inp2.errorParam = ""
  · have hl2 : lookupState (eraseState store inp.state) inp2.state = none :=
      by rw [h3]; exact hnone
    rw [callbackHandler_nostate exchange2 now2 _ inp2 he2 hl2]
    exact ⟨rfl, rfl⟩
  · rw [callbackHandler_err exchange2 now2 _ inp2 he2]
    exact ⟨rfl, rfl⟩

/-- Witness for C8 at a concrete replayed state. -/
theorem C8_state_single_use_witness :
    lookupState (callbackHandler (fun _ => some ⟨"AT", "RT", 3600⟩) 10
        [("s1", 0)] ⟨"s1", "c1", ""⟩).2 "s1" = none ∧
    (callbackHandler (fun _ => some ⟨"AT", "RT", 3600⟩) 20
        (callbackHandler (fun _ => some ⟨"AT", "RT", 3600⟩) 10 [("s1", 0)]
          ⟨"s1", "c1", ""⟩).2 ⟨"s1", "c2", ""⟩).1.status = 400 ∧
    (callbackHandler (fun _ => some ⟨"AT", "RT", 3600⟩) 20
        (callbackHandler (fun _ => some ⟨"AT", "RT", 3600⟩) 10 [("s1", 0)]
          ⟨"s1", "c1", ""⟩).2 ⟨"s1", "c2", ""⟩).1.exchanged = false :=
  C8_state_single_use (fun _ => some ⟨"AT", "RT", 3600⟩)
    (fun _ => some ⟨"AT", "RT", 3600⟩) 10 20 [("s1", 0)] ⟨"s1", "c1", ""⟩
    ⟨"s1", "c2", ""⟩ 0 rfl (by decide) rfl

/-! ## Branch lemmas for requireAuth -/

theorem requireAuth_noAccess (parse : String → Option Int)
    (refresh : String → Option Token) (fmt : Int → String) (now : Int)
    (req : AuthRequest) (h : req.accessCookie = none) :
    requireAuth parse refresh fmt now req = ⟨true, none, [], false, false⟩ :=
  by simp [requireAuth, h]

theorem requireAuth_fresh (parse : String → Option Int)
    (refresh : String → Option Token) (fmt : Int → String) (now : Int)
    (req : AuthRequest) (a : String) (h : req.accessCookie = some a)
    (h2 : computeNeedsRefresh parse now req.expiryCookie = false) :
    requireAuth parse refresh fmt now req = ⟨false, some a, [], false,
      false⟩ := by
  simp [requireAuth, h, h2]

theorem requireAuth_noRefreshCookie (parse : String → Option Int)
    (refresh : String → Option Token) (fmt : Int → String) (now : Int)
    (req : AuthRequest) (a : String) (h : req.accessCookie = some a)
    (h2 : computeNeedsRefresh parse now req.expiryCookie = true)
    (h3 : req.refreshCookie = none) :
    requireAuth parse refresh fmt now req = ⟨true, none, [], true, false⟩ :=
  by simp [requireAuth, h, h2, h3]

theorem requireAuth_refreshFail (parse : String → Option Int)
    (refresh : String → Option Token) (fmt : Int → String) (now : Int)
    (req : AuthRequest) (a rt : String) (h : req.accessCookie = some a)
    (h2 : computeNeedsRefresh parse now req.expiryCookie = true)
    (h3 : req.refreshCookie = some rt) (h4 : refresh rt = none) :
    requireAuth parse refresh fmt now req = ⟨true, none, [], true, true⟩ :=
  by simp [requireAuth, h, h2, h3, h4]

theorem requireAuth_refreshOk (parse : String → Option Int)
    (refresh : String → Option Token) (fmt : Int → String) (now : Int)
    (req : AuthRequest) (a rt : String) (tok : Token)
    (h : req.accessCookie = some a)
    (h2 : computeNeedsRefresh parse now req.expiryCookie = true)
    (h3 : req.refreshCookie = some rt) (h4 : refresh rt = some tok) :
    requireAuth parse refresh fmt now req =
      ⟨false, some tok.accessToken,
        [accessTokenCookie tok, expiryCookieOf fmt tok] ++
          (if tok.refreshToken ≠ "" then [refreshTokenCookie tok] else []),
        true, true⟩ := by
  simp [requireAuth, h, h2, h3, h4]

theorem computeNeedsRefresh_true_iff (parse : String → Option Int)
    (now : Int) (ec : Option String) :
    computeNeedsRefresh parse now ec = true ↔
      ec = none ∨ (∃ v, ec = some v ∧ parse v = none) ∨
      (∃ v e, ec = some v ∧ parse v = some e ∧ e - now < 300) := by
  cases ec with
  | none => simp [computeNeedsRefresh]
  | some v =>
    cases hp : parse v with
    | none => simp [computeNeedsRefresh, hp]
    | some e => simp [computeNeedsRefresh, hp]

/-- Claim C2: RequireAuth redirects to /login without invoking the
wrapped handler when the access-token cookie is absent; when the expiry
cookie is absent, unparsable, or parses to less than 5 minutes in the
future it attempts a refresh, redirecting to /login when the
refresh-token cookie is absent or the refresh fails; and the wrapped
handler is only ever invoked with the original cookie value or the
freshly refreshed access token. -/
theorem C2_requireAuth_gate (parse : String → Option Int)
    (refresh : String → Option Token) (fmt : Int → String) (now : Int)
    (req : AuthRequest) :
    (req.accessCookie = none →
      (requireAuth parse refresh fmt now req).redirected = true ∧
      (requireAuth parse refresh fmt now req).nextToken = none) ∧
    (∀ a, req.accessCookie = some a →
      (req.expiryCookie = none ∨
        (∃ v, req.expiryCookie = some v ∧ parse v = none) ∨
        (∃ v e, req.expiryCookie = some v ∧ parse v = some e ∧
          e - now < 300)) →
      (requireAuth parse refresh fmt now req).needsRefresh = true ∧
      (req.refreshCookie = none →
        (requireAuth parse refresh fmt now req).redirected = true ∧
        (requireAuth parse refresh fmt now req).nextToken = none) ∧
      (∀ rt, req.refreshCookie = some rt →
        (requireAuth parse refresh fmt now req).refreshCalled = true ∧
        (refresh rt = none →
          (requireAuth parse refresh fmt now req).redirected = true ∧
          (requireAuth parse refresh fmt now req).nextToken = none))) ∧
    (∀ tk, (requireAuth parse refresh fmt now req).nextToken = some tk →
      (∃ a, req.accessCookie = some a ∧ tk = a) ∨
      (∃ rt tok, req.refreshCookie = some rt ∧ refresh rt = some tok ∧
        tk = tok.accessToken)) := by
  cases ha : req.accessCookie with
  | none =>
    rw [requireAuth_noAccess parse refresh fmt now req ha]
    simp
  | some a =>
    cases hnr : computeNeedsRefresh parse now req.expiryCookie with
    | false =>
      rw [requireAuth_fresh parse refresh fmt now req a ha hnr]
      refine ⟨by simp, ?_, ?_⟩
      · intro b hb hcond
        have hc2 := (computeNeedsRefresh_true_iff parse now
          req.expiryCookie).mpr hcond
        rw [hnr] at hc2
        cases hc2
      · intro tk htk
        have h : a = tk := by simpa using htk
        exact Or.inl ⟨a, rfl, h.symm⟩
    | true =>
      cases hrc : req.refreshCookie with
      | none =>
        rw [requireAuth_noRefreshCookie parse refresh fmt now req a ha hnr
          hrc]
        simp
      | some rt =>
        cases hx : refresh rt with
        | none =>
          rw [requireAuth_refreshFail parse refresh fmt now req a rt ha hnr
            hrc hx]
          simp
        | some tok =>
          rw [requireAuth_refreshOk parse refresh fmt now req a rt tok ha
            hnr hrc hx]
          refine ⟨by simp, ?_, ?_⟩
          · intro b hb hcond
            refine ⟨rfl, by simp, ?_⟩
            intro rt2 hrt2
            have he2 : rt2 = rt := by injection hrt2 with h; exact h.symm
            subst he2
            refine ⟨rfl, fun hx2 => ?_⟩
            rw [hx] at hx2
            cases hx2
          · intro tk htk
            have h : tok.accessToken = tk := by simpa using htk
            exact Or.inr ⟨rt, tok, rfl, hx, h.symm⟩

/-- Witness for C2 at a concrete request with no access-token cookie. -/
theorem C2_requireAuth_gate_witness :
    (requireAuth (fun _ => some 0) (fun _ => none) (fun _ => "t") 0
      ⟨none, none, none⟩).redirected = true ∧
    (requireAuth (fun _ => some 0) (fun _ => none) (fun _ => "t") 0
      ⟨none, none, none⟩).nextToken = none :=
  (C2_requireAuth_gate (fun _ => some 0) (fun _ => none) (fun _ => "t") 0
    ⟨none, none, none⟩).1 rfl

/-- Claim C9: CallbackHandler never sets a spotify_token_expiry cookie,
and RequireAuth treats a missing expiry cookie as requiring a refresh, so
a request carrying exactly the cookies a fresh login produces (an
access-token and a refresh-token cookie but no expiry cookie) always has
a refresh attempted, whatever the current time. -/
theorem C9_fresh_login_always_refreshes (exchange : String → Option Token)
    (now : Int) (store : StateStore) (inp : CallbackInput)
    (parse : String → Option Int) (refresh : String → Option Token)
    (fmt : Int → String) (now2 : Int) (a rt : String) :
    (∀ c ∈ (callbackHandler exchange now store inp).1.cookies,
      c.name ≠ "spotify_token_expiry") ∧
    (requireAuth parse refresh fmt now2
      ⟨some a, none, some rt⟩).needsRefresh = true ∧
    (requireAuth parse refresh fmt now2
      ⟨some a, none, some rt⟩).refreshCalled = true := by
  refine ⟨?_, ?_⟩
  · by_cases he : inp.errorParam = ""
    · cases hl : lookupState store inp.state with
      | none =>
        rw [callbackHandler_nostate exchange now store inp he hl]
        simp
      | some t =>
        by_cases ht : now - t > 120
        · rw [callbackHandler_expired exchange now store inp t he hl ht]
          simp
        · cases hx : exchange inp.code with
          | none =>
            rw [callbackHandler_exchangeFail exchange now store inp t he hl
              ht hx]
            simp
          | some tok =>
            rw [callbackHandler_success exchange now store inp t tok he hl
              ht hx]
            intro c hc
            rcases List.mem_append.mp hc with hc1 | hc2
            · rcases List.mem_singleton.mp hc1 with rfl
              simp [accessTokenCookie]
            · by_cases hr : tok.refreshToken ≠ ""
              · rw [if_pos hr] at hc2
                rcases List.mem_singleton.mp hc2 with rfl
                simp [refreshTokenCookie]
              · rw [if_neg hr] at hc2
                cases hc2
    · rw [callbackHandler_err exchange now store inp he]
      simp
  · have hnr : computeNeedsRefresh parse now2
        (⟨some a, none, some rt⟩ : AuthRequest).expiryCookie = true := rfl
    cases hx : refresh rt with
    | none =>
      rw [requireAuth_refreshFail parse refresh fmt now2
        ⟨some a, none, some rt⟩ a rt rfl hnr rfl hx]
      exact ⟨rfl, rfl⟩
    | some tok =>
      rw [requireAuth_refreshOk parse refresh fmt now2
        ⟨some a, none, some rt⟩ a rt tok rfl hnr rfl hx]
      exact ⟨rfl, rfl⟩

/-- Witness for C9 at a concrete callback and a concrete fresh-login
request: the one cookie the concrete success callback sets is the
access-token cookie, and the middleware attempts a refresh. -/
theorem C9_fresh_login_always_refreshes_witness :
    (⟨"spotify_access_token", "AT", true, some 3600, none⟩ : Cookie).name ≠
      "spotify_token_expiry" ∧
    (requireAuth (fun _ => some 999999) (fun _ => none) (fun _ => "t") 0
      ⟨some "AT", none, some "RT"⟩).needsRefresh = true ∧
    (requireAuth (fun _ => some 999999) (fun _ => none) (fun _ => "t") 0
      ⟨some "AT", none, some "RT"⟩).refreshCalled = true := by
  have h := C9_fresh_login_always_refreshes
    (fun _ => some ⟨"AT", "", 3600⟩) 10 [("s1", 0)] ⟨"s1", "c1", ""⟩
    (fun _ => some 999999) (fun _ => none) (fun _ => "t") 0 "AT" "RT"
  exact ⟨h.1 ⟨"spotify_access_token", "AT", true, some 3600, none⟩
    (by decide), h.2.1, h.2.2⟩

/-- Claim C6: gridHandler fetches only when the global tracksCache is
empty; a non-empty cache is served unchanged without fetching; on an
empty cache a successful fetch makes the cache exactly the fetched list,
and a failed fetch answers 500 leaving the cache empty. -/
theorem C6_grid_cache (fetchResult : Except String (List Track))
    (cache : List Track) :
    (cache ≠ [] →
      (gridHandler fetchResult cache).1.fetched = false ∧
      (gridHandler fetchResult cache).2 = cache) ∧
    (cache = [] →
      (gridHandler fetchResult cache).1.fetched = true ∧
      (∀ ts, fetchResult = Except.ok ts →
        (gridHandler fetchResult cache).2 = ts ∧
        (gridHandler fetchResult cache).1.status = 200) ∧
      (∀ e, fetchResult = Except.error e →
        (gridHandler fetchResult cache).1.status = 500 ∧
        (gridHandler fetchResult cache).2 = [])) := by
  by_cases hc : cache = []
  · subst hc
    constructor
    · intro h
      exact absurd rfl h
    · intro _
      cases fetchResult with
      | error e =>
        refine ⟨rfl, ?_, ?_⟩
        · intro ts hts
          cases hts
        · intro e2 he2
          exact ⟨rfl, rfl⟩
      | ok ts =>
        refine ⟨rfl, ?_, ?_⟩
        · intro ts2 hts
          injection hts with h
          subst h
          exact ⟨rfl, rfl⟩
        · intro e2 he2
          cases he2
  · constructor
    · intro _
      have hlen : ¬ cache.length = 0 := by
        simpa [List.length_eq_zero] using hc
      simp [gridHandler, hlen]
    · intro h
      exact absurd h hc

/-- Witness for C6 at a concrete non-empty cache. -/
theorem C6_grid_cache_witness :
    (gridHandler (Except.error "boom")
      [⟨"uriA", "SongA", "ArtistA", "imgA"⟩]).1.fetched = false ∧
    (gridHandler (Except.error "boom")
      [⟨"uriA", "SongA", "ArtistA", "imgA"⟩]).2 =
      [⟨"uriA", "SongA", "ArtistA", "imgA"⟩] :=
  (C6_grid_cache (Except.error "boom")
    [⟨"uriA", "SongA", "ArtistA", "imgA"⟩]).1 (by decide)

/-- Claim C10: on the root path homeHandler renders LoggedIn = true and
Token = the access-token cookie value when the cookie is present, so the
HttpOnly token value is embedded in the page; with no cookie it renders
LoggedIn = false and an empty Token. -/
theorem C10_home_token_exposure (v : String) :
    homeHandler "/" (some v) = some ⟨true, v⟩ ∧
    homeHandler "/" none = some ⟨false, ""⟩ :=
  ⟨rfl, rfl⟩

/-! ## Lemmas about the album-image selection -/

theorem albumImageOf_of_found (img0 : ImageObj) (imgs : List ImageObj)
    (h : ∃ im ∈ imgs, im.height = 64 ∧ im.width = 64) :
    ∃ im ∈ imgs, im.height = 64 ∧ im.width = 64 ∧
      albumImageOf img0 imgs = im.url := by
  cases hf : imgs.find? (fun im => im.height == 64 && im.width == 64) with
  | none =>
    obtain ⟨im, him, h64, w64⟩ := h
    have := List.find?_eq_none.mp hf im him
    simp [h64, w64] at this
  | some im =>
    have hmem := List.mem_of_find?_eq_some hf
    have hpred := List.find?_some hf
    have h64 : im.height = 64 ∧ im.width = 64 := by
      simpa using hpred
    exact ⟨im, hmem, h64.1, h64.2, by simp [albumImageOf, hf]⟩

theorem albumImageOf_of_not_found (img0 : ImageObj) (imgs : List ImageObj)
    (h : ∀ im ∈ imgs, ¬(im.height = 64 ∧ im.width = 64)) :
    albumImageOf img0 imgs = (imgs.getLastD img0).url := by
  have hf : imgs.find? (fun im => im.height == 64 && im.width == 64) =
      none := by
    apply List.find?_eq_none.mpr
    intro im him
    have := h im him
    simpa using this
  simp [albumImageOf, hf]

theorem getLastD_cons_irrel (l : List ImageObj) (x d1 d2 : ImageObj) :
    (x :: l).getLastD d1 = (x :: l).getLastD d2 := by
  rw [List.getLastD_cons, List.getLastD_cons]

/-- Claim C4: normalizeItem gives ID = linked_from.uri exactly when
linked_from is present with a non-empty uri and the track uri otherwise,
Artist = the first artist name or "", AlbumImage = the url of a 64x64
image when one exists and the last image url otherwise, and skips any
item whose album image list is empty. -/
theorem C4_normalize_item (item : SavedItem) :
    (item.track.albumImages = [] → normalizeItem item = none) ∧
    (item.track.albumImages ≠ [] →
      ∃ tr, normalizeItem item = some tr ∧
        tr.Name = item.track.name ∧
        (∀ lf, item.track.linkedFrom = some lf → lf.uri ≠ "" →
          tr.ID = lf.uri) ∧
        (item.track.linkedFrom = none → tr.ID = item.track.uri) ∧
        (∀ lf, item.track.linkedFrom = some lf → lf.uri = "" →
          tr.ID = item.track.uri) ∧
        (item.track.artists = [] → tr.Artist = "") ∧
        (∀ a rest, item.track.artists = a :: rest → tr.Artist = a.name) ∧
        ((∃ im ∈ item.track.albumImages,
            im.height = 64 ∧ im.width = 64) →
          ∃ im ∈ item.track.albumImages, im.height = 64 ∧ im.width = 64 ∧
            tr.AlbumImage = im.url) ∧
        ((∀ im ∈ item.track.albumImages,
            ¬(im.height = 64 ∧ im.width = 64)) →
          ∀ d, tr.AlbumImage = (item.track.albumImages.getLastD d).url)) :=
  by
  constructor
  · intro h
    simp [normalizeItem, h]
  · intro h
    cases himg : item.track.albumImages with
    | nil => exact absurd himg h
    | cons img0 rest =>
      refine ⟨⟨stableURIOf item.track, item.track.name,
        firstArtistName item.track,
        albumImageOf img0 (img0 :: rest)⟩, ?_, rfl, ?_, ?_, ?_, ?_, ?_,
        ?_, ?_⟩
      · simp [normalizeItem, himg]
      · intro lf hlf hne
        simp [stableURIOf, hlf, hne]
      · intro hlf
        simp [stableURIOf, hlf]
      · intro lf hlf hem
        simp [stableURIOf, hlf, hem]
      · intro hart
        simp [firstArtistName, hart]
      · intro a rest2 hart
        simp [firstArtistName, hart]
      · intro hex
        exact albumImageOf_of_found img0 (img0 :: rest) hex
      · intro hnone d
        have h1 := albumImageOf_of_not_found img0 (img0 :: rest) hnone
        have h2 := getLastD_cons_irrel rest img0 img0 d
        simpa [h2] using h1

/-- Witness for C4 at a concrete item with a 64x64 image and a
linked_from entry. -/
theorem C4_normalize_item_witness :
    (⟨"2024-01-01", ⟨"idA", "uriA", "SongA", some ⟨"idL", "uriL"⟩,
        [⟨"ArtistA"⟩], [⟨"big", 640, 640⟩, ⟨"small", 64, 64⟩]⟩⟩ :
      SavedItem).track.albumImages ≠ [] ∧
    ∃ tr, normalizeItem ⟨"2024-01-01", ⟨"idA", "uriA", "SongA",
        some ⟨"idL", "uriL"⟩, [⟨"ArtistA"⟩],
        [⟨"big", 640, 640⟩, ⟨"small", 64, 64⟩]⟩⟩ = some tr ∧
      tr.ID = "uriL" ∧ tr.Artist = "ArtistA" ∧ tr.AlbumImage = "small" :=
  by
  have h := (C4_normalize_item ⟨"2024-01-01", ⟨"idA", "uriA", "SongA",
    some ⟨"idL", "uriL"⟩, [⟨"ArtistA"⟩],
    [⟨"big", 640, 640⟩, ⟨"small", 64, 64⟩]⟩⟩).2 (by decide)
  obtain ⟨tr, heq, hname, hlf, hlfn, hlfe, hart0, hart, h64, hlast⟩ := h
  refine ⟨by decide, tr, heq, hlf ⟨"idL", "uriL"⟩ rfl (by decide), ?_, ?_⟩
  · exact hart ⟨"ArtistA"⟩ [] rfl
  · obtain ⟨im, him, hh, hw, hurl⟩ := h64 ⟨⟨"small", 64, 64⟩, by decide,
      by decide, by decide⟩
    rcases List.mem_cons.mp him with him1 | him2
    · rw [him1] at hh
      exact absurd hh (by decide)
    · rcases List.mem_singleton.mp him2 with rfl
      exact hurl

/-! ## The pagination claims -/

theorem fetchLoop_exit (outcomes : List FetchOutcome) (acc : List Track) :
    fetchLoop outcomes "" acc = some (Except.ok acc) := by
  match outcomes with
  | [] => simp [fetchLoop]
  | FetchOutcome.httpErr m :: rest => simp [fetchLoop]
  | FetchOutcome.badStatus c b :: rest => simp [fetchLoop]
  | FetchOutcome.decodeErr m :: rest => simp [fetchLoop]
  | FetchOutcome.ok p :: rest => simp [fetchLoop]

theorem fetchLoop_cons_ok (page : SavedTracksResponse)
    (rest : List FetchOutcome) (url : String) (acc : List Track)
    (hu : url ≠ "") :
    fetchLoop (FetchOutcome.ok page :: rest) url acc =
      fetchLoop rest (nextURL page) (acc ++ pageTracks page) := by
  rw [fetchLoop, if_neg hu]

theorem fetchLoop_cons_httpErr (m : String) (rest : List FetchOutcome)
    (url : String) (acc : List Track) (hu : url ≠ "") :
    fetchLoop (FetchOutcome.httpErr m :: rest) url acc =
      some (Except.error ("failed to fetch tracks: " ++ m)) := by
  rw [fetchLoop, if_neg hu]

theorem fetchLoop_cons_badStatus (code : Nat) (body : String)
    (rest : List FetchOutcome) (url : String) (acc : List Track)
    (hu : url ≠ "") :
    fetchLoop (FetchOutcome.badStatus code body :: rest) url acc =
      some (Except.error ("spotify API error " ++ toString code ++ ": " ++
        body)) := by
  rw [fetchLoop, if_neg hu]

theorem fetchLoop_cons_decodeErr (m : String) (rest : List FetchOutcome)
    (url : String) (acc : List Track) (hu : url ≠ "") :
    fetchLoop (FetchOutcome.decodeErr m :: rest) url acc =
      some (Except.error ("failed to decode response: " ++ m)) := by
  rw [fetchLoop, if_neg hu]

/-- A trace of decoded pages matching the premise of the amended claim
C3: every page except the last carries a non-null, non-empty next URL,
and the last page has a null next. -/
def chainOk : List SavedTracksResponse → Bool
  | [] => false
  | [p] => p.next.isNone
  | p :: rest =>
    (match p.next with
     | some u => u != ""
     | none => false) && chainOk rest

theorem fetchLoop_chain (pages : List SavedTracksResponse) :
    ∀ (url : String) (acc : List Track), url ≠ "" → chainOk pages = true →
      fetchLoop (pages.map FetchOutcome.ok) url acc =
        some (Except.ok (acc ++ (pages.map pageTracks).flatten)) := by
  induction pages with
  | nil =>
    intro url acc hu hc
    cases hc
  | cons p rest ih =>
    intro url acc hu hc
    cases rest with
    | nil =>
      have hn : p.next = none := by
        simpa [chainOk, Option.isNone_iff_eq_none] using hc
      rw [List.map_cons, List.map_nil,
        fetchLoop_cons_ok p [] url acc hu,
        show nextURL p = "" from by simp [nextURL, hn],
        fetchLoop_exit]
      simp
    | cons q rest2 =>
      have hsplit : (match p.next with
          | some u => u != ""
          | none => false) = true ∧ chainOk (q :: rest2) = true := by
        simpa [chainOk] using hc
      obtain ⟨h1, h2⟩ := hsplit
      cases hpn : p.next with
      | none =>
        rw [hpn] at h1
        cases h1
      | some u =>
        rw [hpn] at h1
        have hu2 : u ≠ "" := by simpa using h1
        have hrec := ih u (acc ++ pageTracks p) hu2 h2
        rw [List.map_cons, fetchLoop_cons_ok p _ url acc hu,
          show nextURL p = u from by simp [nextURL, hpn], hrec]
        simp [List.append_assoc]

/-- A concrete saved-tracks item used by the C3 analysis. -/
def cexItemA : SavedItem :=
  ⟨"2024-01-01", ⟨"idA", "uriA", "SongA", none, [⟨"ArtistA"⟩],
    [⟨"imgA", 64, 64⟩]⟩⟩

/-- A second concrete saved-tracks item used by the C3 analysis. -/
def cexItemB : SavedItem :=
  ⟨"2024-01-02", ⟨"idB", "uriB", "SongB", none, [⟨"ArtistB"⟩],
    [⟨"imgB", 64, 64⟩]⟩⟩

/-- A first page whose next field is non-null but the empty string. -/
def cexPage1 : SavedTracksResponse := ⟨[cexItemA], some "", 2, 50, 0⟩

/-- A last page with a null next field. -/
def cexPage2 : SavedTracksResponse := ⟨[cexItemB], none, 2, 50, 50⟩

/-- A first page whose next field is a non-empty URL. -/
def wPage1 : SavedTracksResponse :=
  ⟨[cexItemA], some "https://api.spotify.com/v1/me/tracks?offset=50", 2,
    50, 0⟩

/-- Counterexample to C3 as stated: in the trace cexPage1, cexPage2 every
page except the last has a non-null next (cexPage1.next is the non-null
empty string) and the last has a null next, yet the loop condition
url != "" makes FetchLikedTracks stop after the first page, returning
only its tracks instead of the concatenation of both pages. -/
theorem C3_pagination_cex :
    cexPage1.next ≠ none ∧ cexPage2.next = none ∧
    fetchLikedTracks [FetchOutcome.ok cexPage1, FetchOutcome.ok cexPage2] =
      some (Except.ok (pageTracks cexPage1)) ∧
    pageTracks cexPage1 ≠ pageTracks cexPage1 ++ pageTracks cexPage2 := by
  refine ⟨by decide, rfl, rfl, by decide⟩

/-- Claim C3 as amended: when every page except the last carries a
non-null and non-empty next URL and the last page has a null next,
FetchLikedTracks returns, without error, the concatenation in page order
and item order of the normalized tracks of every page, starting from the
first page requested with the limit=50 URL. -/
theorem C3_pagination_concat (pages : List SavedTracksResponse)
    (h : chainOk pages = true) :
    fetchLikedTracks (pages.map FetchOutcome.ok) =
      some (Except.ok ((pages.map pageTracks).flatten)) := by
  have h0 : initialTracksURL ≠ "" := by decide
  simpa using fetchLoop_chain pages initialTracksURL [] h0 h

/-- Witness for the amended C3 at a concrete two-page trace. -/
theorem C3_pagination_concat_witness :
    fetchLikedTracks [FetchOutcome.ok wPage1, FetchOutcome.ok cexPage2] =
      some (Except.ok (([wPage1, cexPage2].map pageTracks).flatten)) :=
  C3_pagination_concat [wPage1, cexPage2] (by decide)

/-- A loop-terminating event in the sense of the C7 premise: a non-200
status, a JSON decode error, or a decoded page with a null next field. -/
def claimTerminal : FetchOutcome → Bool
  | FetchOutcome.httpErr _ => false
  | FetchOutcome.badStatus _ _ => true
  | FetchOutcome.decodeErr _ => true
  | FetchOutcome.ok page => page.next.isNone

/-- Claim C7: whenever the response trace contains a terminating event
(null next, non-200 status or decode error), the paging loop of
FetchLikedTracks returns within the trace, from any url and accumulator:
the loop performs finitely many iterations. -/
theorem C7_fetch_terminates (outcomes : List FetchOutcome)
    (h : outcomes.any claimTerminal = true) :
    ∀ (url : String) (acc : List Track),
      ∃ r, fetchLoop outcomes url acc = some r := by
  induction outcomes with
  | nil => cases h
  | cons o rest ih =>
    intro url acc
    by_cases hu : url = ""
    · subst hu
      exact ⟨Except.ok acc, fetchLoop_exit _ acc⟩
    · cases o with
      | httpErr m =>
        exact ⟨Except.error ("failed to fetch tracks: " ++ m),
          fetchLoop_cons_httpErr m rest url acc hu⟩
      | badStatus c b =>
        exact ⟨Except.error ("spotify API error " ++ toString c ++ ": " ++
          b), fetchLoop_cons_badStatus c b rest url acc hu⟩
      | decodeErr m =>
        exact ⟨Except.error ("failed to decode response: " ++ m),
          fetchLoop_cons_decodeErr m rest url acc hu⟩
      | ok page =>
        cases hn : page.next with
        | none =>
          refine ⟨Except.ok (acc ++ pageTracks page), ?_⟩
          rw [fetchLoop_cons_ok page rest url acc hu,
            show nextURL page = "" from by simp [nextURL, hn],
            fetchLoop_exit]
        | some u =>
          have hrest : rest.any claimTerminal = true := by
            simpa [claimTerminal, hn] using h
          obtain ⟨r, hr⟩ := ih hrest (nextURL page)
            (acc ++ pageTracks page)
          exact ⟨r, by rw [fetchLoop_cons_ok page rest url acc hu, hr]⟩

/-- Witness for C7 at a concrete one-page trace whose page has a null
next field. -/
theorem C7_fetch_terminates_witness :
    ∃ r, fetchLoop [FetchOutcome.ok ⟨[], none, 0, 50, 0⟩] "u" [] =
      some r :=
  C7_fetch_terminates [FetchOutcome.ok ⟨[], none, 0, 50, 0⟩] (by decide)
    "u" []

end Bangerid
